import Mathlib

/-!
The `endpointCommand` handler of `api/http/handler/endpoints/endpoint_command.go`.

The handler is a straight line of calls into collaborators (request parsing,
the endpoint store, the archive packager, the Docker client factory and the
Docker client), each of which may fail.  The embedding makes the collaborators
explicit: an `Env` gives what every collaborator returns, and the handler is a
pure function that returns the ordered trace of the calls it made, each with
the error it returned, together with the handler's own return value.
-/

namespace EndpointCommand

/-! Data model -/

/-- Raw byte content (`[]byte`). -/
abbrev Bytes := List Nat

/-- A Go `error` value.  `portainerError` holds values of the string type
`portainer.Error`; `other` stands for an error of any other dynamic type. -/
inductive GoError where
  | portainerError (msg : String)
  | other (text : String)
  deriving DecidableEq, Repr

/-- The incoming `*http.Request`, reduced to what the parsers look at. -/
structure Request where
  routeVars : List (String × String)
  formFiles : List (String × Bytes)
  deriving DecidableEq, Repr

/-- A `*portainer.Endpoint`.  The handler only passes it on to the client
factory, so only its identifier and URL are kept. -/
structure Endpoint where
  ID : Int
  URL : String
  deriving DecidableEq, Repr

/-- The fields of `container.Config` that the handler sets. -/
structure Config where
  AttachStdin : Bool
  AttachStdout : Bool
  AttachStderr : Bool
  Tty : Bool
  WorkingDir : String
  Image : String
  Labels : List (String × String)
  Cmd : List String
  deriving DecidableEq, Repr

/-- The fields of `container.HostConfig` that the handler sets. -/
structure HostConfig where
  Binds : List String
  NetworkMode : String
  Privileged : Bool
  deriving DecidableEq, Repr

/-- The value `network.NetworkingConfig{}`: no endpoint configuration. -/
structure NetworkingConfig where
  EndpointsConfig : List (String × String)
  deriving DecidableEq, Repr

/-- The value `types.CopyToContainerOptions{}`. -/
structure CopyToContainerOptions where
  AllowOverwriteDirWithFile : Bool
  deriving DecidableEq, Repr

/-- The value `types.ContainerStartOptions{}`. -/
structure ContainerStartOptions where
  CheckpointID : String
  CheckpointDir : String
  deriving DecidableEq, Repr

/-- The body `ContainerCreate` returns. -/
structure ContainerCreateCreatedBody where
  ID : String
  Warnings : List String
  deriving DecidableEq, Repr

/-- The `*httperror.HandlerError` triple: status code, message, cause. -/
structure HandlerError where
  StatusCode : Nat
  Message : String
  Err : GoError
  deriving DecidableEq, Repr

/-- Status code `http.StatusNoContent`. -/
def StatusNoContent : Nat := 204
/-- Status code `http.StatusBadRequest`. -/
def StatusBadRequest : Nat := 400
/-- Status code `http.StatusNotFound`. -/
def StatusNotFound : Nat := 404
/-- Status code `http.StatusInternalServerError`. -/
def StatusInternalServerError : Nat := 500

/-- The Docker client the factory hands out: what each method returns for
its arguments.  `Close` is the error `cli.Close()` returns. -/
structure Client where
  ContainerCreate : Config → HostConfig → NetworkingConfig → String →
    Except GoError ContainerCreateCreatedBody
  CopyToContainer : String → String → Bytes → CopyToContainerOptions → Option GoError
  ContainerStart : String → ContainerStartOptions → Option GoError
  Close : Option GoError

/-- Everything outside the handler: the package-level functions and constants
it imports and the two services of the `Handler` receiver. -/
structure Env where
  /-- The constant `portainer.ErrObjectNotFound`. -/
  ErrObjectNotFound : GoError
  /-- The function `request.RetrieveNumericRouteVariableValue`. -/
  RetrieveNumericRouteVariableValue : Request → String → Except GoError Int
  /-- The function `request.RetrieveMultiPartFormFile`: content and file name. -/
  RetrieveMultiPartFormFile : Request → String → Except GoError (Bytes × String)
  /-- The method `handler.EndpointService.Endpoint`. -/
  EndpointService_Endpoint : Int → Except GoError Endpoint
  /-- The function `archive.TarFileInBuffer`. -/
  TarFileInBuffer : Bytes → String → Nat → Except GoError Bytes
  /-- The method `handler.DockerClientFactory.CreateClient`. -/
  DockerClientFactory_CreateClient : Endpoint → Except GoError Client

/-- A call the handler can make on a collaborator, with its arguments.
`containerStop` and `containerRemove` are the client's teardown methods. -/
inductive Call where
  | retrieveNumericRouteVariableValue (name : String)
  | retrieveMultiPartFormFile (name : String)
  | endpoint (id : Int)
  | tarFileInBuffer (content : Bytes) (name : String) (mode : Nat)
  | createClient (ep : Endpoint)
  | containerCreate (config : Config) (hostConfig : HostConfig)
      (networkConfig : NetworkingConfig) (containerName : String)
  | copyToContainer (id : String) (dstPath : String) (content : Bytes)
      (options : CopyToContainerOptions)
  | containerStart (id : String) (options : ContainerStartOptions)
  | containerStop (id : String)
  | containerRemove (id : String)
  | close
  | writeHeader (status : Nat)
  deriving DecidableEq, Repr

/-- One entry of the trace: the call and the error it returned (`none` for
`nil`). -/
structure Event where
  call : Call
  err : Option GoError
  deriving DecidableEq, Repr

/-! The code -/

/-- The request payload `endpointCommandPayload`. -/
structure endpointCommandPayload where
  Script : Bytes
  deriving DecidableEq, Repr

/-- The method `(*endpointCommandPayload).Validate`: the updated payload, the
call made and the returned error. -/
def endpointCommandPayload.Validate (env : Env) (payload : endpointCommandPayload)
    (r : Request) : endpointCommandPayload × List Event × Option GoError :=
  match env.RetrieveMultiPartFormFile r "Script" with
  | .error err =>
    (payload, [⟨.retrieveMultiPartFormFile "Script", some err⟩],
      some (.portainerError "Invalid Script file. Ensure that the file is uploaded correctly"))
  | .ok (script, _) =>
    ({ payload with Script := script }, [⟨.retrieveMultiPartFormFile "Script", none⟩], none)

/-- Modelled from the spec: `response.Empty` of the HTTP helper library is not
under src/; it is the "empty success acknowledgment" of the downstream
contract: it writes the no-content status and returns no error. -/
def responseEmpty : List Event × Option HandlerError :=
  ([⟨.writeHeader StatusNoContent, none⟩], none)

/-- The `cmd` slice: `make([]string, 1)` with element 0 set. -/
def cmd : List String := (List.replicate 1 "").set 0 "/tmp/script.sh"

/-- The `containerConfig` literal. -/
def containerConfig : Config :=
  { AttachStdin := true
    AttachStdout := true
    AttachStderr := true
    Tty := true
    WorkingDir := "/tmp"
    Image := "ubuntu:14.04"
    Labels := [("io.portainer.command", "someidentifier")]
    Cmd := cmd }

/-- The `hostConfig` literal. -/
def hostConfig : HostConfig :=
  { Binds := ["/:/host", "/etc:/etc:ro"]
    NetworkMode := "host"
    Privileged := true }

/-- The `networkConfig` literal. -/
def networkConfig : NetworkingConfig := { EndpointsConfig := [] }

/-- The `copyOptions` literal. -/
def copyOptions : CopyToContainerOptions := { AllowOverwriteDirWithFile := false }

/-- The `startOptions` literal. -/
def startOptions : ContainerStartOptions := { CheckpointID := "", CheckpointDir := "" }

/-- The part of `endpointCommand` that runs after `defer cli.Close()` is
registered: create, copy, start, respond. -/
def endpointCommandDeferred (cli : Client) (buffer : Bytes) :
    List Event × Option HandlerError :=
  match cli.ContainerCreate containerConfig hostConfig networkConfig "" with
  | .error err =>
    ([⟨.containerCreate containerConfig hostConfig networkConfig "", some err⟩],
      some ⟨StatusInternalServerError, "Command exec (create) error", err⟩)
  | .ok body =>
    match cli.CopyToContainer body.ID "/tmp" buffer copyOptions with
    | some err =>
      ([⟨.containerCreate containerConfig hostConfig networkConfig "", none⟩,
        ⟨.copyToContainer body.ID "/tmp" buffer copyOptions, some err⟩],
        some ⟨StatusInternalServerError, "Command exec (copy) error", err⟩)
    | none =>
      match cli.ContainerStart body.ID startOptions with
      | some err =>
        ([⟨.containerCreate containerConfig hostConfig networkConfig "", none⟩,
          ⟨.copyToContainer body.ID "/tmp" buffer copyOptions, none⟩,
          ⟨.containerStart body.ID startOptions, some err⟩],
          some ⟨StatusInternalServerError, "Command exec (start) error", err⟩)
      | none =>
        ([⟨.containerCreate containerConfig hostConfig networkConfig "", none⟩,
          ⟨.copyToContainer body.ID "/tmp" buffer copyOptions, none⟩,
          ⟨.containerStart body.ID startOptions, none⟩] ++ responseEmpty.1,
          responseEmpty.2)

/-- The handler `endpointCommand`: the trace of collaborator calls in the
order made and the returned `*httperror.HandlerError` (`none` for `nil`).
The deferred `cli.Close()` runs once the rest of the body has returned. -/
def endpointCommand (env : Env) (r : Request) : List Event × Option HandlerError :=
  match env.RetrieveNumericRouteVariableValue r "id" with
  | .error err =>
    ([⟨.retrieveNumericRouteVariableValue "id", some err⟩],
      some ⟨StatusBadRequest, "Invalid endpoint identifier route variable", err⟩)
  | .ok endpointID =>
    let t1 : List Event := [⟨.retrieveNumericRouteVariableValue "id", none⟩]
    match endpointCommandPayload.Validate env { Script := [] } r with
    | (_, tv, some err) =>
      (t1 ++ tv, some ⟨StatusBadRequest, "Invalid request payload", err⟩)
    | (payload, tv, none) =>
      let t2 := t1 ++ tv
      match env.EndpointService_Endpoint endpointID with
      | .error err =>
        if err = env.ErrObjectNotFound then
          (t2 ++ [⟨.endpoint endpointID, some err⟩],
            some ⟨StatusNotFound,
              "Unable to find an endpoint with the specified identifier inside the database", err⟩)
        else
          (t2 ++ [⟨.endpoint endpointID, some err⟩],
            some ⟨StatusInternalServerError,
              "Unable to find an endpoint with the specified identifier inside the database", err⟩)
      | .ok endpoint =>
        let t3 := t2 ++ [⟨.endpoint endpointID, none⟩]
        match env.TarFileInBuffer payload.Script "script.sh" 0o700 with
        | .error err =>
          (t3 ++ [⟨.tarFileInBuffer payload.Script "script.sh" 0o700, some err⟩],
            some ⟨StatusInternalServerError, "Command exec error", err⟩)
        | .ok buffer =>
          let t4 := t3 ++ [⟨.tarFileInBuffer payload.Script "script.sh" 0o700, none⟩]
          match env.DockerClientFactory_CreateClient endpoint with
          | .error err =>
            (t4 ++ [⟨.createClient endpoint, some err⟩],
              some ⟨StatusInternalServerError, "Command exec error", err⟩)
          | .ok cli =>
            let t5 := t4 ++ [⟨.createClient endpoint, none⟩]
            let res := endpointCommandDeferred cli buffer
            (t5 ++ res.1 ++ [⟨.close, cli.Close⟩], res.2)

/-! Observations on a trace -/

/-- The stages of the handler at which a collaborator can fail. -/
inductive Stage where
  | routeVar | payload | lookup | archive | client | create | inject | start
  deriving DecidableEq, Repr

/-- The stage a call belongs to; `close` and the response write are not
stages. -/
def Call.stage : Call → Option Stage
  | .retrieveNumericRouteVariableValue _ => some .routeVar
  | .retrieveMultiPartFormFile _ => some .payload
  | .endpoint _ => some .lookup
  | .tarFileInBuffer _ _ _ => some .archive
  | .createClient _ => some .client
  | .containerCreate _ _ _ _ => some .create
  | .copyToContainer _ _ _ _ => some .inject
  | .containerStart _ _ => some .start
  | _ => none

/-- The stages whose call returned an error, in trace order. -/
def failedStages (t : List Event) : List Stage :=
  t.filterMap (fun e => if e.err.isSome then e.call.stage else none)

/-- The container lifecycle operations of the runtime client. -/
inductive Lifecycle where
  | create | inject | start | stop | remove
  deriving DecidableEq, Repr

/-- The lifecycle operation a call performs, if any. -/
def Call.lifecycle : Call → Option Lifecycle
  | .containerCreate _ _ _ _ => some .create
  | .copyToContainer _ _ _ _ => some .inject
  | .containerStart _ _ => some .start
  | .containerStop _ => some .stop
  | .containerRemove _ => some .remove
  | _ => none

/-- The lifecycle operations of a trace, in the order issued. -/
def lifecycleCalls (t : List Event) : List Lifecycle :=
  t.filterMap (fun e => e.call.lifecycle)

/-- The lifecycle operations of a trace whose call returned an error. -/
def failedLifecycle (t : List Event) : List Lifecycle :=
  t.filterMap (fun e => if e.err.isSome then e.call.lifecycle else none)

/-- Whether the event is a `cli.Close()` call. -/
def Event.isClose (e : Event) : Bool :=
  match e.call with
  | .close => true
  | _ => false

/-- Whether the event is a `CreateClient` call that returned a client. -/
def Event.acquiredClient (e : Event) : Bool :=
  match e.call, e.err with
  | .createClient _, none => true
  | _, _ => false

/-- Whether the status code is a client error (4xx). -/
def isClientError (status : Nat) : Bool := 400 ≤ status && status < 500

/-- Whether the status code is a server error (5xx). -/
def isServerError (status : Nat) : Bool := 500 ≤ status && status < 600

/-- What holds of the arguments of a call found in a trace of the handler run
on `env` and `r`: the specifications given to create, the source of the bytes
given to the packager, and the source of the handle and archive given to copy
and start. -/
def callArgs (env : Env) (r : Request) : Call → Prop
  | .tarFileInBuffer content name mode =>
    name = "script.sh" ∧ mode = 0o700 ∧
      ∃ fileName, env.RetrieveMultiPartFormFile r "Script" = .ok (content, fileName)
  | .containerCreate config host net containerName =>
    config = containerConfig ∧ host = hostConfig ∧ net = networkConfig ∧ containerName = ""
  | .copyToContainer id dstPath content options =>
    dstPath = "/tmp" ∧ options = copyOptions ∧
      ∃ script fileName, env.RetrieveMultiPartFormFile r "Script" = .ok (script, fileName) ∧
        env.TarFileInBuffer script "script.sh" 0o700 = .ok content ∧
        ∃ endpointID ep cli body, env.RetrieveNumericRouteVariableValue r "id" = .ok endpointID ∧
          env.EndpointService_Endpoint endpointID = .ok ep ∧
          env.DockerClientFactory_CreateClient ep = .ok cli ∧
          cli.ContainerCreate containerConfig hostConfig networkConfig "" = .ok body ∧
          body.ID = id
  | .containerStart id options =>
    options = startOptions ∧
      ∃ endpointID ep cli body, env.RetrieveNumericRouteVariableValue r "id" = .ok endpointID ∧
        env.EndpointService_Endpoint endpointID = .ok ep ∧
        env.DockerClientFactory_CreateClient ep = .ok cli ∧
        cli.ContainerCreate containerConfig hostConfig networkConfig "" = .ok body ∧
        body.ID = id
  | _ => True

/-- The failure the handler returns when the call of stage `s` returns the
error `e`, read off the `return` statement that follows each call. -/
def failureOf (env : Env) (s : Stage) (e : GoError) : HandlerError :=
  match s with
  | .routeVar => ⟨StatusBadRequest, "Invalid endpoint identifier route variable", e⟩
  | .payload =>
    ⟨StatusBadRequest, "Invalid request payload",
      .portainerError "Invalid Script file. Ensure that the file is uploaded correctly"⟩
  | .lookup =>
    ⟨if e = env.ErrObjectNotFound then StatusNotFound else StatusInternalServerError,
      "Unable to find an endpoint with the specified identifier inside the database", e⟩
  | .archive => ⟨StatusInternalServerError, "Command exec error", e⟩
  | .client => ⟨StatusInternalServerError, "Command exec error", e⟩
  | .create => ⟨StatusInternalServerError, "Command exec (create) error", e⟩
  | .inject => ⟨StatusInternalServerError, "Command exec (copy) error", e⟩
  | .start => ⟨StatusInternalServerError, "Command exec (start) error", e⟩

/-! Sample collaborators -/

/-- A client that returns handle `abc123` on create and fails at the given
lifecycle operation, if any. -/
def mockClient (fail : Option Stage) : Client :=
  { ContainerCreate := fun _ _ _ _ =>
      if fail = some .create then .error (.other "create refused")
      else .ok { ID := "abc123", Warnings := [] }
    CopyToContainer := fun _ _ _ _ =>
      if fail = some .inject then some (.other "copy refused") else none
    ContainerStart := fun _ _ =>
      if fail = some .start then some (.other "start refused") else none
    Close := none }

/-- An environment that fails at the given stage, if any, with the given
error at the lookup stage.  The script is the first uploaded file and the
archive is the script behind a one-byte header. -/
def mockEnv (fail : Option Stage) (lookupErr : GoError) : Env :=
  { ErrObjectNotFound := .portainerError "Object not found inside the database"
    RetrieveNumericRouteVariableValue := fun _ _ =>
      if fail = some .routeVar then .error (.other "not a number") else .ok 7
    RetrieveMultiPartFormFile := fun r _ =>
      if fail = some .payload then .error (.other "no file")
      else match r.formFiles with
        | (_, content) :: _ => .ok (content, "upload.sh")
        | [] => .error (.other "no file")
    EndpointService_Endpoint := fun id =>
      if fail = some .lookup then .error lookupErr
      else .ok { ID := id, URL := "tcp://10.0.0.7:2375" }
    TarFileInBuffer := fun content _ _ =>
      if fail = some .archive then .error (.other "tar failed") else .ok (0 :: content)
    DockerClientFactory_CreateClient := fun _ =>
      if fail = some .client then .error (.other "dial failed")
      else .ok (mockClient fail) }

/-- A request with route variable `id` and an uploaded script of three bytes. -/
def mockRequest : Request :=
  { routeVars := [("id", "7")], formFiles := [("Script", [35, 33, 10])] }

/-! The shape of a run -/

/-- The trace up to and including a successful endpoint lookup. -/
def resolvedTrace (endpointID : Int) : List Event :=
  [⟨.retrieveNumericRouteVariableValue "id", none⟩,
   ⟨.retrieveMultiPartFormFile "Script", none⟩,
   ⟨.endpoint endpointID, none⟩]

/-- Every run of the handler has one of ten shapes, one per exit. -/
theorem endpointCommand_shape (env : Env) (r : Request) :
    (∃ e, env.RetrieveNumericRouteVariableValue r "id" = .error e ∧
      endpointCommand env r =
        ([⟨.retrieveNumericRouteVariableValue "id", some e⟩],
          some ⟨400, "Invalid endpoint identifier route variable", e⟩)) ∨
    (∃ id e, env.RetrieveNumericRouteVariableValue r "id" = .ok id ∧
      env.RetrieveMultiPartFormFile r "Script" = .error e ∧
      endpointCommand env r =
        ([⟨.retrieveNumericRouteVariableValue "id", none⟩,
          ⟨.retrieveMultiPartFormFile "Script", some e⟩],
          some ⟨400, "Invalid request payload",
            .portainerError "Invalid Script file. Ensure that the file is uploaded correctly"⟩)) ∨
    (∃ id script name e, env.RetrieveNumericRouteVariableValue r "id" = .ok id ∧
      env.RetrieveMultiPartFormFile r "Script" = .ok (script, name) ∧
      env.EndpointService_Endpoint id = .error e ∧
      endpointCommand env r =
        ([⟨.retrieveNumericRouteVariableValue "id", none⟩,
          ⟨.retrieveMultiPartFormFile "Script", none⟩,
          ⟨.endpoint id, some e⟩],
          some ⟨if e = env.ErrObjectNotFound then 404 else 500,
            "Unable to find an endpoint with the specified identifier inside the database", e⟩)) ∨
    (∃ id script name ep e, env.RetrieveNumericRouteVariableValue r "id" = .ok id ∧
      env.RetrieveMultiPartFormFile r "Script" = .ok (script, name) ∧
      env.EndpointService_Endpoint id = .ok ep ∧
      env.TarFileInBuffer script "script.sh" 448 = .error e ∧
      endpointCommand env r =
        (resolvedTrace id ++ [⟨.tarFileInBuffer script "script.sh" 448, some e⟩],
          some ⟨500, "Command exec error", e⟩)) ∨
    (∃ id script name ep buffer e, env.RetrieveNumericRouteVariableValue r "id" = .ok id ∧
      env.RetrieveMultiPartFormFile r "Script" = .ok (script, name) ∧
      env.EndpointService_Endpoint id = .ok ep ∧
      env.TarFileInBuffer script "script.sh" 448 = .ok buffer ∧
      env.DockerClientFactory_CreateClient ep = .error e ∧
      endpointCommand env r =
        (resolvedTrace id ++ [⟨.tarFileInBuffer script "script.sh" 448, none⟩,
          ⟨.createClient ep, some e⟩],
          some ⟨500, "Command exec error", e⟩)) ∨
    (∃ id script name ep buffer cli, env.RetrieveNumericRouteVariableValue r "id" = .ok id ∧
      env.RetrieveMultiPartFormFile r "Script" = .ok (script, name) ∧
      env.EndpointService_Endpoint id = .ok ep ∧
      env.TarFileInBuffer script "script.sh" 448 = .ok buffer ∧
      env.DockerClientFactory_CreateClient ep = .ok cli ∧
      endpointCommand env r =
        (resolvedTrace id ++ [⟨.tarFileInBuffer script "script.sh" 448, none⟩,
          ⟨.createClient ep, none⟩] ++ (endpointCommandDeferred cli buffer).1 ++
          [⟨.close, cli.Close⟩],
          (endpointCommandDeferred cli buffer).2)) := by
  cases h1 : env.RetrieveNumericRouteVariableValue r "id" with
  | error e => simp [endpointCommand, h1, StatusBadRequest]
  | ok id =>
    cases h2 : env.RetrieveMultiPartFormFile r "Script" with
    | error e => simp [endpointCommand, endpointCommandPayload.Validate, h1, h2, StatusBadRequest]
    | ok sn =>
      obtain ⟨script, name⟩ := sn
      cases h3 : env.EndpointService_Endpoint id with
      | error e =>
        by_cases hnf : e = env.ErrObjectNotFound <;>
          simp [endpointCommand, endpointCommandPayload.Validate, h1, h2, h3, hnf,
            StatusNotFound, StatusInternalServerError]
      | ok ep =>
        cases h4 : env.TarFileInBuffer script "script.sh" 448 with
        | error e =>
          simp [endpointCommand, endpointCommandPayload.Validate, h1, h2, h3, h4,
            resolvedTrace, StatusInternalServerError]
        | ok buffer =>
          cases h5 : env.DockerClientFactory_CreateClient ep with
          | error e =>
            simp [endpointCommand, endpointCommandPayload.Validate, h1, h2, h3, h4, h5,
              resolvedTrace, StatusInternalServerError]
          | ok cli =>
            simp [endpointCommand, endpointCommandPayload.Validate, h1, h2, h3, h4, h5,
              resolvedTrace]

/-- The part after the `defer` has one of four shapes. -/
theorem endpointCommandDeferred_shape (cli : Client) (buffer : Bytes) :
    (∃ e, cli.ContainerCreate containerConfig hostConfig networkConfig "" = .error e ∧
      endpointCommandDeferred cli buffer =
        ([⟨.containerCreate containerConfig hostConfig networkConfig "", some e⟩],
          some ⟨500, "Command exec (create) error", e⟩)) ∨
    (∃ body e, cli.ContainerCreate containerConfig hostConfig networkConfig "" = .ok body ∧
      cli.CopyToContainer body.ID "/tmp" buffer copyOptions = some e ∧
      endpointCommandDeferred cli buffer =
        ([⟨.containerCreate containerConfig hostConfig networkConfig "", none⟩,
          ⟨.copyToContainer body.ID "/tmp" buffer copyOptions, some e⟩],
          some ⟨500, "Command exec (copy) error", e⟩)) ∨
    (∃ body e, cli.ContainerCreate containerConfig hostConfig networkConfig "" = .ok body ∧
      cli.CopyToContainer body.ID "/tmp" buffer copyOptions = none ∧
      cli.ContainerStart body.ID startOptions = some e ∧
      endpointCommandDeferred cli buffer =
        ([⟨.containerCreate containerConfig hostConfig networkConfig "", none⟩,
          ⟨.copyToContainer body.ID "/tmp" buffer copyOptions, none⟩,
          ⟨.containerStart body.ID startOptions, some e⟩],
          some ⟨500, "Command exec (start) error", e⟩)) ∨
    (∃ body, cli.ContainerCreate containerConfig hostConfig networkConfig "" = .ok body ∧
      cli.CopyToContainer body.ID "/tmp" buffer copyOptions = none ∧
      cli.ContainerStart body.ID startOptions = none ∧
      endpointCommandDeferred cli buffer =
        ([⟨.containerCreate containerConfig hostConfig networkConfig "", none⟩,
          ⟨.copyToContainer body.ID "/tmp" buffer copyOptions, none⟩,
          ⟨.containerStart body.ID startOptions, none⟩,
          ⟨.writeHeader 204, none⟩], none)) := by
  cases h1 : cli.ContainerCreate containerConfig hostConfig networkConfig "" with
  | error e => simp [endpointCommandDeferred, h1, StatusInternalServerError]
  | ok body =>
    cases h2 : cli.CopyToContainer body.ID "/tmp" buffer copyOptions with
    | some e => simp [endpointCommandDeferred, h1, h2, StatusInternalServerError]
    | none =>
      cases h3 : cli.ContainerStart body.ID startOptions with
      | some e => simp [endpointCommandDeferred, h1, h2, h3, StatusInternalServerError]
      | none => simp [endpointCommandDeferred, h1, h2, h3, responseEmpty, StatusNoContent]

/-! The successful run -/

/-- C1: when route parsing, payload validation and endpoint lookup succeed and
archive building, client creation, create, inject and start all succeed, the
handler makes the calls create, inject, start in that order, each once; inject
and start receive the `body.ID` create returned, inject receives the archive
the packager built from the uploaded script, and the handler returns the empty
success response (`nil`). -/
theorem endpointCommand_success (env : Env) (r : Request) (id : Int) (script : Bytes)
    (name : String) (ep : Endpoint) (buffer : Bytes) (cli : Client)
    (body : ContainerCreateCreatedBody)
    (h1 : env.RetrieveNumericRouteVariableValue r "id" = .ok id)
    (h2 : env.RetrieveMultiPartFormFile r "Script" = .ok (script, name))
    (h3 : env.EndpointService_Endpoint id = .ok ep)
    (h4 : env.TarFileInBuffer script "script.sh" 0o700 = .ok buffer)
    (h5 : env.DockerClientFactory_CreateClient ep = .ok cli)
    (h6 : cli.ContainerCreate containerConfig hostConfig networkConfig "" = .ok body)
    (h7 : cli.CopyToContainer body.ID "/tmp" buffer copyOptions = none)
    (h8 : cli.ContainerStart body.ID startOptions = none) :
    endpointCommand env r =
      ([⟨.retrieveNumericRouteVariableValue "id", none⟩,
        ⟨.retrieveMultiPartFormFile "Script", none⟩,
        ⟨.endpoint id, none⟩,
        ⟨.tarFileInBuffer script "script.sh" 0o700, none⟩,
        ⟨.createClient ep, none⟩,
        ⟨.containerCreate containerConfig hostConfig networkConfig "", none⟩,
        ⟨.copyToContainer body.ID "/tmp" buffer copyOptions, none⟩,
        ⟨.containerStart body.ID startOptions, none⟩,
        ⟨.writeHeader StatusNoContent, none⟩,
        ⟨.close, cli.Close⟩], none) ∧
    lifecycleCalls (endpointCommand env r).1 = [.create, .inject, .start] ∧
    (endpointCommand env r).2 = responseEmpty.2 := by
  have hrun : endpointCommand env r =
      ([⟨.retrieveNumericRouteVariableValue "id", none⟩,
        ⟨.retrieveMultiPartFormFile "Script", none⟩,
        ⟨.endpoint id, none⟩,
        ⟨.tarFileInBuffer script "script.sh" 0o700, none⟩,
        ⟨.createClient ep, none⟩,
        ⟨.containerCreate containerConfig hostConfig networkConfig "", none⟩,
        ⟨.copyToContainer body.ID "/tmp" buffer copyOptions, none⟩,
        ⟨.containerStart body.ID startOptions, none⟩,
        ⟨.writeHeader StatusNoContent, none⟩,
        ⟨.close, cli.Close⟩], none) := by
    simp [endpointCommand, endpointCommandPayload.Validate, endpointCommandDeferred,
      responseEmpty, h1, h2, h3, h4, h5, h6, h7, h8]
  refine ⟨hrun, ?_, ?_⟩
  · rw [hrun]; simp [lifecycleCalls, Call.lifecycle]
  · rw [hrun]; rfl

/-- The successful run on the sample collaborators: handle `abc123` goes to
inject and start, and the handler returns `nil`. -/
theorem endpointCommand_success_witness :
    endpointCommand (mockEnv none (.other "")) mockRequest =
      ([⟨.retrieveNumericRouteVariableValue "id", none⟩,
        ⟨.retrieveMultiPartFormFile "Script", none⟩,
        ⟨.endpoint 7, none⟩,
        ⟨.tarFileInBuffer [35, 33, 10] "script.sh" 0o700, none⟩,
        ⟨.createClient ⟨7, "tcp://10.0.0.7:2375"⟩, none⟩,
        ⟨.containerCreate containerConfig hostConfig networkConfig "", none⟩,
        ⟨.copyToContainer "abc123" "/tmp" [0, 35, 33, 10] copyOptions, none⟩,
        ⟨.containerStart "abc123" startOptions, none⟩,
        ⟨.writeHeader StatusNoContent, none⟩,
        ⟨.close, none⟩], none) ∧
    lifecycleCalls (endpointCommand (mockEnv none (.other "")) mockRequest).1 =
      [.create, .inject, .start] ∧
    (endpointCommand (mockEnv none (.other "")) mockRequest).2 = responseEmpty.2 :=
  endpointCommand_success (mockEnv none (.other "")) mockRequest 7 [35, 33, 10] "upload.sh"
    ⟨7, "tcp://10.0.0.7:2375"⟩ [0, 35, 33, 10] (mockClient none) ⟨"abc123", []⟩
    rfl rfl rfl rfl rfl rfl rfl rfl

/-! Lifecycle order and short-circuit -/

/-- C2: the lifecycle calls of every run are a prefix of create, inject, start
that ends at the first failing operation: a failed create is the only lifecycle
call, a failed inject is preceded by create only, no operation is repeated, and
no stop or remove is ever issued. -/
theorem endpointCommand_lifecycle (env : Env) (r : Request) :
    lifecycleCalls (endpointCommand env r).1 <+: [.create, .inject, .start] ∧
    (lifecycleCalls (endpointCommand env r).1).Nodup ∧
    Lifecycle.stop ∉ lifecycleCalls (endpointCommand env r).1 ∧
    Lifecycle.remove ∉ lifecycleCalls (endpointCommand env r).1 ∧
    (Lifecycle.create ∈ failedLifecycle (endpointCommand env r).1 →
      lifecycleCalls (endpointCommand env r).1 = [.create]) ∧
    (Lifecycle.inject ∈ failedLifecycle (endpointCommand env r).1 →
      lifecycleCalls (endpointCommand env r).1 = [.create, .inject]) ∧
    (Lifecycle.start ∈ failedLifecycle (endpointCommand env r).1 →
      lifecycleCalls (endpointCommand env r).1 = [.create, .inject, .start]) ∧
    (failedLifecycle (endpointCommand env r).1 = [] →
      lifecycleCalls (endpointCommand env r).1 = [] ∨
      lifecycleCalls (endpointCommand env r).1 = [.create, .inject, .start]) := by
  rcases endpointCommand_shape env r with ⟨e, _, hrun⟩ | ⟨id, e, _, _, hrun⟩ |
    ⟨id, script, name, e, _, _, _, hrun⟩ | ⟨id, script, name, ep, e, _, _, _, _, hrun⟩ |
    ⟨id, script, name, ep, buffer, e, _, _, _, _, _, hrun⟩ |
    ⟨id, script, name, ep, buffer, cli, _, _, _, _, _, hrun⟩
  · rw [hrun]; simp [lifecycleCalls, failedLifecycle, Call.lifecycle]
  · rw [hrun]; simp [lifecycleCalls, failedLifecycle, Call.lifecycle]
  · rw [hrun]; simp [lifecycleCalls, failedLifecycle, Call.lifecycle]
  · rw [hrun]; simp [lifecycleCalls, failedLifecycle, Call.lifecycle, resolvedTrace]
  · rw [hrun]; simp [lifecycleCalls, failedLifecycle, Call.lifecycle, resolvedTrace]
  · rcases endpointCommandDeferred_shape cli buffer with ⟨e, _, hd⟩ | ⟨body, e, _, _, hd⟩ |
      ⟨body, e, _, _, _, hd⟩ | ⟨body, _, _, _, hd⟩
    · rw [hrun, hd]
      simp [lifecycleCalls, failedLifecycle, Call.lifecycle, resolvedTrace]
    · rw [hrun, hd]
      simp [lifecycleCalls, failedLifecycle, Call.lifecycle, resolvedTrace]
    · rw [hrun, hd]
      simp [lifecycleCalls, failedLifecycle, Call.lifecycle, resolvedTrace]
    · rw [hrun, hd]
      simp [lifecycleCalls, failedLifecycle, Call.lifecycle, resolvedTrace]

/-- A run whose inject fails: the lifecycle calls are create, inject and
nothing else. -/
theorem endpointCommand_lifecycle_witness :
    Lifecycle.inject ∈
      failedLifecycle (endpointCommand (mockEnv (some .inject) (.other "")) mockRequest).1 ∧
    lifecycleCalls (endpointCommand (mockEnv (some .inject) (.other "")) mockRequest).1 =
      [.create, .inject] :=
  ⟨by decide,
    (endpointCommand_lifecycle (mockEnv (some .inject) (.other "")) mockRequest).2.2.2.2.2.1
      (by decide)⟩

/-! The deferred close -/

/-- C3: `Close` is called exactly once in every run in which `CreateClient`
returned a client, as the last call of the run, whichever of create, inject,
start fails or none; it is never called in a run that ends at a failed route
variable, payload, lookup, archive build or client creation. -/
theorem endpointCommand_close (env : Env) (r : Request) :
    (endpointCommand env r).1.countP Event.isClose =
      (if (endpointCommand env r).1.any Event.acquiredClient then 1 else 0) ∧
    ((endpointCommand env r).1.any Event.acquiredClient = true →
      ∃ pre closeErr, (endpointCommand env r).1 = pre ++ [⟨.close, closeErr⟩] ∧
        pre.countP Event.isClose = 0) ∧
    (∀ s ∈ failedStages (endpointCommand env r).1,
      (s = .create ∨ s = .inject ∨ s = .start →
        (endpointCommand env r).1.countP Event.isClose = 1) ∧
      (s = .routeVar ∨ s = .payload ∨ s = .lookup ∨ s = .archive ∨ s = .client →
        (endpointCommand env r).1.countP Event.isClose = 0)) ∧
    ((endpointCommand env r).2 = none →
      (endpointCommand env r).1.countP Event.isClose = 1) := by
  rcases endpointCommand_shape env r with ⟨e, _, hrun⟩ | ⟨id, e, _, _, hrun⟩ |
    ⟨id, script, name, e, _, _, _, hrun⟩ | ⟨id, script, name, ep, e, _, _, _, _, hrun⟩ |
    ⟨id, script, name, ep, buffer, e, _, _, _, _, _, hrun⟩ |
    ⟨id, script, name, ep, buffer, cli, _, _, _, _, _, hrun⟩
  · rw [hrun]
    simp [failedStages, Call.stage, Event.isClose, Event.acquiredClient, List.countP_cons]
  · rw [hrun]
    simp [failedStages, Call.stage, Event.isClose, Event.acquiredClient, List.countP_cons]
  · rw [hrun]
    simp [failedStages, Call.stage, Event.isClose, Event.acquiredClient, List.countP_cons]
  · rw [hrun]
    simp [failedStages, Call.stage, Event.isClose, Event.acquiredClient, List.countP_cons,
      resolvedTrace]
  · rw [hrun]
    simp [failedStages, Call.stage, Event.isClose, Event.acquiredClient, List.countP_cons,
      resolvedTrace]
  · rcases endpointCommandDeferred_shape cli buffer with ⟨e, _, hd⟩ | ⟨body, e, _, _, hd⟩ |
      ⟨body, e, _, _, _, hd⟩ | ⟨body, _, _, _, hd⟩
    · rw [hrun, hd]
      refine ⟨?_, ?_, ?_, ?_⟩
      · simp [Event.isClose, Event.acquiredClient, List.countP_cons, resolvedTrace]
      · intro _
        exact ⟨_, cli.Close, rfl, by
          simp [Event.isClose, List.countP_cons, resolvedTrace]⟩
      · simp [failedStages, Call.stage, Event.isClose, List.countP_cons, resolvedTrace]
      · simp
    · rw [hrun, hd]
      refine ⟨?_, ?_, ?_, ?_⟩
      · simp [Event.isClose, Event.acquiredClient, List.countP_cons, resolvedTrace]
      · intro _
        exact ⟨_, cli.Close, rfl, by
          simp [Event.isClose, List.countP_cons, resolvedTrace]⟩
      · simp [failedStages, Call.stage, Event.isClose, List.countP_cons, resolvedTrace]
      · simp
    · rw [hrun, hd]
      refine ⟨?_, ?_, ?_, ?_⟩
      · simp [Event.isClose, Event.acquiredClient, List.countP_cons, resolvedTrace]
      · intro _
        exact ⟨_, cli.Close, rfl, by
          simp [Event.isClose, List.countP_cons, resolvedTrace]⟩
      · simp [failedStages, Call.stage, Event.isClose, List.countP_cons, resolvedTrace]
      · simp
    · rw [hrun, hd]
      refine ⟨?_, ?_, ?_, ?_⟩
      · simp [Event.isClose, Event.acquiredClient, List.countP_cons, resolvedTrace]
      · intro _
        exact ⟨_, cli.Close, rfl, by
          simp [Event.isClose, List.countP_cons, resolvedTrace]⟩
      · simp [failedStages, Call.stage, Event.isClose, List.countP_cons, resolvedTrace]
      · simp [Event.isClose, List.countP_cons, resolvedTrace]

/-- A run whose create fails after the client was acquired: `Close` is the
last call and is the only `Close`. -/
theorem endpointCommand_close_witness :
    (endpointCommand (mockEnv (some .create) (.other "")) mockRequest).1.any
      Event.acquiredClient = true ∧
    ∃ pre closeErr,
      (endpointCommand (mockEnv (some .create) (.other "")) mockRequest).1 =
        pre ++ [⟨.close, closeErr⟩] ∧
      pre.countP Event.isClose = 0 :=
  ⟨by decide,
    (endpointCommand_close (mockEnv (some .create) (.other "")) mockRequest).2.1 (by decide)⟩

/-! Endpoint lookup failure -/

/-- C4: when the lookup of the endpoint identifier fails, the run makes no
call beyond route parsing, payload validation and the lookup (no packager, no
`CreateClient`, no create, inject, start or close); with a valid payload the
handler returns status 404 when the error is `ErrObjectNotFound` and status
500 for any other error, with the lookup error as cause. -/
theorem endpointCommand_lookup_failure (env : Env) (r : Request) (id : Int) (e : GoError)
    (h1 : env.RetrieveNumericRouteVariableValue r "id" = .ok id)
    (h3 : env.EndpointService_Endpoint id = .error e) :
    (∀ ev ∈ (endpointCommand env r).1,
      ev.call.stage = some .routeVar ∨ ev.call.stage = some .payload ∨
        ev.call.stage = some .lookup) ∧
    (∀ script name, env.RetrieveMultiPartFormFile r "Script" = .ok (script, name) →
      (e = env.ErrObjectNotFound →
        (endpointCommand env r).2 = some ⟨StatusNotFound,
          "Unable to find an endpoint with the specified identifier inside the database", e⟩ ∧
        StatusNotFound = 404) ∧
      (e ≠ env.ErrObjectNotFound →
        (endpointCommand env r).2 = some ⟨StatusInternalServerError,
          "Unable to find an endpoint with the specified identifier inside the database", e⟩ ∧
        StatusInternalServerError = 500)) := by
  cases h2 : env.RetrieveMultiPartFormFile r "Script" with
  | error e2 =>
    simp [endpointCommand, endpointCommandPayload.Validate, h1, h2, Call.stage]
  | ok sn =>
    obtain ⟨script, name⟩ := sn
    by_cases hnf : e = env.ErrObjectNotFound
    · simp [endpointCommand, endpointCommandPayload.Validate, h1, h2, h3, hnf, Call.stage,
        StatusNotFound]
    · simp [endpointCommand, endpointCommandPayload.Validate, h1, h2, h3, hnf, Call.stage,
        StatusInternalServerError]

/-- An unknown endpoint on the sample collaborators: status 404, and the trace
stops at the lookup. -/
theorem endpointCommand_lookup_failure_witness :
    (endpointCommand (mockEnv (some .lookup)
        (.portainerError "Object not found inside the database")) mockRequest).2 =
      some ⟨404,
        "Unable to find an endpoint with the specified identifier inside the database",
        .portainerError "Object not found inside the database"⟩ ∧
    (endpointCommand (mockEnv (some .lookup) (.other "database closed")) mockRequest).2 =
      some ⟨500,
        "Unable to find an endpoint with the specified identifier inside the database",
        .other "database closed"⟩ ∧
    ∀ ev ∈ (endpointCommand (mockEnv (some .lookup)
        (.portainerError "Object not found inside the database")) mockRequest).1,
      ev.call.stage = some .routeVar ∨ ev.call.stage = some .payload ∨
        ev.call.stage = some .lookup :=
  ⟨(((endpointCommand_lookup_failure
      (mockEnv (some .lookup) (.portainerError "Object not found inside the database"))
      mockRequest 7 (.portainerError "Object not found inside the database") rfl rfl).2
      [35, 33, 10] "upload.sh" rfl).1 rfl).1,
   (((endpointCommand_lookup_failure
      (mockEnv (some .lookup) (.other "database closed"))
      mockRequest 7 (.other "database closed") rfl rfl).2
      [35, 33, 10] "upload.sh" rfl).2 (by decide)).1,
   (endpointCommand_lookup_failure
      (mockEnv (some .lookup) (.portainerError "Object not found inside the database"))
      mockRequest 7 (.portainerError "Object not found inside the database") rfl rfl).1⟩

/-! The container specification -/

/-- The arguments of every call in every trace are as `callArgs` says. -/
theorem endpointCommand_callArgs (env : Env) (r : Request) (ev : Event)
    (hev : ev ∈ (endpointCommand env r).1) : callArgs env r ev.call := by
  rcases endpointCommand_shape env r with ⟨e, _, hrun⟩ | ⟨id, e, _, _, hrun⟩ |
    ⟨id, script, name, e, _, _, _, hrun⟩ | ⟨id, script, name, ep, e, _, h2, _, _, hrun⟩ |
    ⟨id, script, name, ep, buffer, e, _, h2, _, _, _, hrun⟩ |
    ⟨id, script, name, ep, buffer, cli, h1, h2, h3, h4, h5, hrun⟩
  · rw [hrun] at hev; simp at hev; subst hev; simp [callArgs]
  · rw [hrun] at hev; simp at hev
    rcases hev with rfl | rfl <;> simp [callArgs]
  · rw [hrun] at hev; simp at hev
    rcases hev with rfl | rfl | rfl <;> simp [callArgs]
  · rw [hrun] at hev; simp [resolvedTrace] at hev
    rcases hev with rfl | rfl | rfl | rfl <;> simp [callArgs, h2]
  · rw [hrun] at hev; simp [resolvedTrace] at hev
    rcases hev with rfl | rfl | rfl | rfl | rfl <;> simp [callArgs, h2]
  · rcases endpointCommandDeferred_shape cli buffer with ⟨e, _, hd⟩ | ⟨body, e, h6, _, hd⟩ |
      ⟨body, e, h6, _, _, hd⟩ | ⟨body, h6, _, _, hd⟩
    · rw [hrun, hd] at hev; simp [resolvedTrace] at hev
      rcases hev with rfl | rfl | rfl | rfl | rfl | rfl | rfl <;> simp [callArgs, h2]
    · rw [hrun, hd] at hev; simp [resolvedTrace] at hev
      rcases hev with rfl | rfl | rfl | rfl | rfl | rfl | rfl | rfl <;> simp [callArgs, h2]
      exact ⟨h4, id, h1, ep, h3, cli, h5, body, h6, rfl⟩
    · rw [hrun, hd] at hev; simp [resolvedTrace] at hev
      rcases hev with rfl | rfl | rfl | rfl | rfl | rfl | rfl | rfl | rfl <;>
        simp [callArgs, h2]
      · exact ⟨h4, id, h1, ep, h3, cli, h5, body, h6, rfl⟩
      · exact ⟨id, h1, ep, h3, cli, h5, body, h6, rfl⟩
    · rw [hrun, hd] at hev; simp [resolvedTrace] at hev
      rcases hev with rfl | rfl | rfl | rfl | rfl | rfl | rfl | rfl | rfl | rfl <;>
        simp [callArgs, h2]
      · exact ⟨h4, id, h1, ep, h3, cli, h5, body, h6, rfl⟩
      · exact ⟨id, h1, ep, h3, cli, h5, body, h6, rfl⟩

/-- C5: every create call of every run receives the same process spec: command
`["/tmp/script.sh"]`, working directory `/tmp`, image `ubuntu:14.04`, all
attach flags and tty set, and the one command label; it does not depend on the
request or on the collaborators. -/
theorem endpointCommand_process_spec (env : Env) (r : Request) (ev : Event)
    (config : Config) (host : HostConfig) (net : NetworkingConfig) (containerName : String)
    (hev : ev ∈ (endpointCommand env r).1)
    (hcall : ev.call = .containerCreate config host net containerName) :
    config =
      { AttachStdin := true, AttachStdout := true, AttachStderr := true, Tty := true,
        WorkingDir := "/tmp", Image := "ubuntu:14.04",
        Labels := [("io.portainer.command", "someidentifier")],
        Cmd := ["/tmp/script.sh"] } ∧
    config.Cmd = ["/tmp/script.sh"] ∧ config.WorkingDir = "/tmp" := by
  have h := endpointCommand_callArgs env r ev hev
  rw [hcall] at h
  obtain ⟨hc, -⟩ := h
  subst hc
  exact ⟨rfl, rfl, rfl⟩

/-- The process spec of the create call of the successful sample run. -/
theorem endpointCommand_process_spec_witness :
    (⟨.containerCreate containerConfig hostConfig networkConfig "", none⟩ : Event) ∈
      (endpointCommand (mockEnv none (.other "")) mockRequest).1 ∧
    containerConfig.Cmd = ["/tmp/script.sh"] ∧ containerConfig.WorkingDir = "/tmp" :=
  ⟨by decide,
    (endpointCommand_process_spec (mockEnv none (.other "")) mockRequest
      ⟨.containerCreate containerConfig hostConfig networkConfig "", none⟩
      containerConfig hostConfig networkConfig "" (by decide) rfl).2⟩

/-- C6: every create call of every run receives the same host spec:
privileged, network mode `host`, and the bind list `/:/host` (the host root,
no read-only flag) followed by `/etc:/etc:ro` (read-only); it does not depend
on the request or on the collaborators. -/
theorem endpointCommand_host_spec (env : Env) (r : Request) (ev : Event)
    (config : Config) (host : HostConfig) (net : NetworkingConfig) (containerName : String)
    (hev : ev ∈ (endpointCommand env r).1)
    (hcall : ev.call = .containerCreate config host net containerName) :
    host.Privileged = true ∧ host.NetworkMode = "host" ∧
    host.Binds = ["/:/host", "/etc:/etc:ro"] := by
  have h := endpointCommand_callArgs env r ev hev
  rw [hcall] at h
  obtain ⟨-, hh, -⟩ := h
  subst hh
  exact ⟨rfl, rfl, rfl⟩

/-- The host spec of the create call of a sample run whose start fails. -/
theorem endpointCommand_host_spec_witness :
    (⟨.containerCreate containerConfig hostConfig networkConfig "", none⟩ : Event) ∈
      (endpointCommand (mockEnv (some .start) (.other "")) mockRequest).1 ∧
    hostConfig.Privileged = true ∧ hostConfig.NetworkMode = "host" ∧
    hostConfig.Binds = ["/:/host", "/etc:/etc:ro"] :=
  ⟨by decide,
    endpointCommand_host_spec (mockEnv (some .start) (.other "")) mockRequest
      ⟨.containerCreate containerConfig hostConfig networkConfig "", none⟩
      containerConfig hostConfig networkConfig "" (by decide) rfl⟩

/-! Failures -/

/-- A stage is among the failed stages of a trace exactly when the trace holds
a call of that stage that returned an error. -/
theorem mem_failedStages (t : List Event) (s : Stage) :
    s ∈ failedStages t ↔ ∃ ev ∈ t, ∃ e, ev.err = some e ∧ ev.call.stage = some s := by
  unfold failedStages
  rw [List.mem_filterMap]
  constructor
  · rintro ⟨ev, hev, h⟩
    cases herr : ev.err with
    | none => simp [herr] at h
    | some e => exact ⟨ev, hev, e, herr, by simpa [herr] using h⟩
  · rintro ⟨ev, hev, e, herr, hs⟩
    exact ⟨ev, hev, by simp [herr, hs]⟩

/-- Whenever a stage call in the trace returned an error, the handler returns
the failure of that stage. -/
theorem endpointCommand_failure (env : Env) (r : Request) (ev : Event) (e : GoError)
    (s : Stage) (hev : ev ∈ (endpointCommand env r).1) (herr : ev.err = some e)
    (hs : ev.call.stage = some s) :
    (endpointCommand env r).2 = some (failureOf env s e) := by
  rcases endpointCommand_shape env r with ⟨e1, _, hrun⟩ | ⟨id, e1, _, _, hrun⟩ |
    ⟨id, script, name, e1, _, _, _, hrun⟩ | ⟨id, script, name, ep, e1, _, _, _, _, hrun⟩ |
    ⟨id, script, name, ep, buffer, e1, _, _, _, _, _, hrun⟩ |
    ⟨id, script, name, ep, buffer, cli, _, _, _, _, _, hrun⟩
  · rw [hrun] at hev ⊢; simp at hev; subst hev
    simp [Call.stage] at herr hs; subst herr hs
    simp [failureOf, StatusBadRequest]
  · rw [hrun] at hev ⊢; simp at hev
    rcases hev with rfl | rfl <;> simp [Call.stage] at herr hs
    subst herr hs
    simp [failureOf, StatusBadRequest]
  · rw [hrun] at hev ⊢; simp at hev
    rcases hev with rfl | rfl | rfl <;> simp [Call.stage] at herr hs
    subst herr hs
    simp [failureOf, StatusNotFound, StatusInternalServerError]
  · rw [hrun] at hev ⊢; simp [resolvedTrace] at hev
    rcases hev with rfl | rfl | rfl | rfl <;> simp [Call.stage] at herr hs
    subst herr hs
    simp [failureOf, StatusInternalServerError]
  · rw [hrun] at hev ⊢; simp [resolvedTrace] at hev
    rcases hev with rfl | rfl | rfl | rfl | rfl <;> simp [Call.stage] at herr hs
    subst herr hs
    simp [failureOf, StatusInternalServerError]
  · rcases endpointCommandDeferred_shape cli buffer with ⟨e1, _, hd⟩ | ⟨body, e1, _, _, hd⟩ |
      ⟨body, e1, _, _, _, hd⟩ | ⟨body, _, _, _, hd⟩
    · rw [hrun, hd] at hev ⊢; simp [resolvedTrace] at hev
      rcases hev with rfl | rfl | rfl | rfl | rfl | rfl | rfl <;>
        simp [Call.stage] at herr hs
      subst herr hs
      simp [failureOf, StatusInternalServerError]
    · rw [hrun, hd] at hev ⊢; simp [resolvedTrace] at hev
      rcases hev with rfl | rfl | rfl | rfl | rfl | rfl | rfl | rfl <;>
        simp [Call.stage] at herr hs
      subst herr hs
      simp [failureOf, StatusInternalServerError]
    · rw [hrun, hd] at hev ⊢; simp [resolvedTrace] at hev
      rcases hev with rfl | rfl | rfl | rfl | rfl | rfl | rfl | rfl | rfl <;>
        simp [Call.stage] at herr hs
      subst herr hs
      simp [failureOf, StatusInternalServerError]
    · rw [hrun, hd] at hev; simp [resolvedTrace] at hev
      rcases hev with rfl | rfl | rfl | rfl | rfl | rfl | rfl | rfl | rfl | rfl <;>
        simp [Call.stage] at herr hs

/-- C7: when a stage fails the handler never reports success, and the status
follows the taxonomy: a failed route variable or payload gives a 4xx status,
an unknown endpoint (lookup error `ErrObjectNotFound`) gives 404, and a failed
archive build, client creation, create, inject or start gives a 5xx status. -/
theorem endpointCommand_status_class (env : Env) (r : Request) (s : Stage)
    (hs : s ∈ failedStages (endpointCommand env r).1) :
    ∃ he, (endpointCommand env r).2 = some he ∧
      (s = .routeVar ∨ s = .payload → isClientError he.StatusCode = true) ∧
      (s = .lookup → he.Err = env.ErrObjectNotFound →
        he.StatusCode = 404 ∧ isClientError he.StatusCode = true) ∧
      (s = .archive ∨ s = .client ∨ s = .create ∨ s = .inject ∨ s = .start →
        isServerError he.StatusCode = true) := by
  obtain ⟨ev, hev, e, herr, hst⟩ := (mem_failedStages _ s).1 hs
  refine ⟨failureOf env s e, endpointCommand_failure env r ev e s hev herr hst, ?_⟩
  cases s <;>
    simp [failureOf, isClientError, isServerError, StatusBadRequest, StatusNotFound,
      StatusInternalServerError]
  intro h
  simp [h]

/-- A sample run whose archive build fails: a failure with a 5xx status. -/
theorem endpointCommand_status_class_witness :
    Stage.archive ∈
      failedStages (endpointCommand (mockEnv (some .archive) (.other "")) mockRequest).1 ∧
    ∃ he, (endpointCommand (mockEnv (some .archive) (.other "")) mockRequest).2 = some he ∧
      (Stage.archive = .routeVar ∨ Stage.archive = .payload →
        isClientError he.StatusCode = true) ∧
      (Stage.archive = .lookup →
        he.Err = (mockEnv (some .archive) (.other "")).ErrObjectNotFound →
        he.StatusCode = 404 ∧ isClientError he.StatusCode = true) ∧
      (Stage.archive = .archive ∨ Stage.archive = .client ∨ Stage.archive = .create ∨
        Stage.archive = .inject ∨ Stage.archive = .start →
        isServerError he.StatusCode = true) :=
  ⟨by decide,
    endpointCommand_status_class (mockEnv (some .archive) (.other "")) mockRequest .archive
      (by decide)⟩

/-- C8: when create, inject or start returns an error, the handler returns a
failure whose message is the fixed text of that stage and whose cause is the
very error the call returned; the texts of the three stages differ, so for any
two such failures equal messages mean the same stage. -/
theorem endpointCommand_runtime_failure (env : Env) (r : Request) (ev : Event) (e : GoError)
    (hev : ev ∈ (endpointCommand env r).1) (herr : ev.err = some e) :
    (ev.call.stage = some .create →
      (endpointCommand env r).2 = some ⟨500, "Command exec (create) error", e⟩) ∧
    (ev.call.stage = some .inject →
      (endpointCommand env r).2 = some ⟨500, "Command exec (copy) error", e⟩) ∧
    (ev.call.stage = some .start →
      (endpointCommand env r).2 = some ⟨500, "Command exec (start) error", e⟩) ∧
    (∀ (env2 : Env) (r2 : Request) (ev2 : Event) (e2 : GoError) (s s2 : Stage)
        (he he2 : HandlerError),
      ev.call.stage = some s → s = .create ∨ s = .inject ∨ s = .start →
      ev2 ∈ (endpointCommand env2 r2).1 → ev2.err = some e2 →
      ev2.call.stage = some s2 → s2 = .create ∨ s2 = .inject ∨ s2 = .start →
      (endpointCommand env r).2 = some he → (endpointCommand env2 r2).2 = some he2 →
      he.Message = he2.Message → s = s2) := by
  refine ⟨?_, ?_, ?_, ?_⟩
  · intro hs
    simpa [failureOf, StatusInternalServerError] using
      endpointCommand_failure env r ev e .create hev herr hs
  · intro hs
    simpa [failureOf, StatusInternalServerError] using
      endpointCommand_failure env r ev e .inject hev herr hs
  · intro hs
    simpa [failureOf, StatusInternalServerError] using
      endpointCommand_failure env r ev e .start hev herr hs
  · intro env2 r2 ev2 e2 s s2 he he2 hs hk hev2 herr2 hs2 hk2 hres hres2 hm
    have h1 := endpointCommand_failure env r ev e s hev herr hs
    have h2 := endpointCommand_failure env2 r2 ev2 e2 s2 hev2 herr2 hs2
    rw [hres] at h1
    rw [hres2] at h2
    simp only [Option.some.injEq] at h1 h2
    subst h1 h2
    rcases hk with rfl | rfl | rfl <;> rcases hk2 with rfl | rfl | rfl <;>
      simp [failureOf] at hm ⊢

/-- A sample run whose inject fails: the failure carries the copy message and
the error the client returned. -/
theorem endpointCommand_runtime_failure_witness :
    (⟨.copyToContainer "abc123" "/tmp" [0, 35, 33, 10] copyOptions,
        some (.other "copy refused")⟩ : Event) ∈
      (endpointCommand (mockEnv (some .inject) (.other "")) mockRequest).1 ∧
    (endpointCommand (mockEnv (some .inject) (.other "")) mockRequest).2 =
      some ⟨500, "Command exec (copy) error", .other "copy refused"⟩ :=
  ⟨by decide,
    (endpointCommand_runtime_failure (mockEnv (some .inject) (.other "")) mockRequest
      ⟨.copyToContainer "abc123" "/tmp" [0, 35, 33, 10] copyOptions,
        some (.other "copy refused")⟩
      (.other "copy refused") (by decide) rfl).2.1 rfl⟩

/-- C9 (as stated, refuted): a run whose archive build fails and a run whose
client creation fails return the same message `Command exec error`, so the
message does not tell the two stages apart. -/
theorem endpointCommand_archive_message_shared :
    failedStages (endpointCommand (mockEnv (some .archive) (.other "")) mockRequest).1 =
      [.archive] ∧
    failedStages (endpointCommand (mockEnv (some .client) (.other "")) mockRequest).1 =
      [.client] ∧
    (endpointCommand (mockEnv (some .archive) (.other "")) mockRequest).2 =
      some ⟨500, "Command exec error", .other "tar failed"⟩ ∧
    (endpointCommand (mockEnv (some .client) (.other "")) mockRequest).2 =
      some ⟨500, "Command exec error", .other "dial failed"⟩ ∧
    ((endpointCommand (mockEnv (some .archive) (.other "")) mockRequest).2.map
        HandlerError.Message =
      (endpointCommand (mockEnv (some .client) (.other "")) mockRequest).2.map
        HandlerError.Message) := by
  decide

/-- C9 (amended): the message of a failure determines the failed stage except
that archive build and client creation share the message `Command exec error`:
two failures with equal messages come from the same stage, or one from the
archive build and the other from client creation. -/
theorem endpointCommand_message_stage (env1 : Env) (r1 : Request) (env2 : Env) (r2 : Request)
    (s1 s2 : Stage) (he1 he2 : HandlerError)
    (h1 : s1 ∈ failedStages (endpointCommand env1 r1).1)
    (h2 : s2 ∈ failedStages (endpointCommand env2 r2).1)
    (hr1 : (endpointCommand env1 r1).2 = some he1)
    (hr2 : (endpointCommand env2 r2).2 = some he2)
    (hm : he1.Message = he2.Message) :
    (s1 = .archive ∨ s1 = .client → he1.Message = "Command exec error") ∧
    (s1 = s2 ∨ (s1 = .archive ∧ s2 = .client) ∨ (s1 = .client ∧ s2 = .archive)) := by
  obtain ⟨ev1, hev1, e1, herr1, hst1⟩ := (mem_failedStages _ s1).1 h1
  obtain ⟨ev2, hev2, e2, herr2, hst2⟩ := (mem_failedStages _ s2).1 h2
  have f1 := endpointCommand_failure env1 r1 ev1 e1 s1 hev1 herr1 hst1
  have f2 := endpointCommand_failure env2 r2 ev2 e2 s2 hev2 herr2 hst2
  rw [hr1] at f1
  rw [hr2] at f2
  simp only [Option.some.injEq] at f1 f2
  subst f1 f2
  cases s1 <;> cases s2 <;> simp [failureOf] at hm ⊢

/-- The amended C9 on an archive failure and a client-creation failure. -/
theorem endpointCommand_message_stage_witness :
    (Stage.archive = .archive ∨ Stage.archive = .client →
      (⟨500, "Command exec error", .other "tar failed"⟩ : HandlerError).Message =
        "Command exec error") ∧
    (Stage.archive = Stage.client ∨ (Stage.archive = .archive ∧ Stage.client = .client) ∨
      (Stage.archive = .client ∧ Stage.client = .archive)) :=
  endpointCommand_message_stage (mockEnv (some .archive) (.other "")) mockRequest
    (mockEnv (some .client) (.other "")) mockRequest .archive .client
    ⟨500, "Command exec error", .other "tar failed"⟩
    ⟨500, "Command exec error", .other "dial failed"⟩
    (by decide) (by decide) (by decide) (by decide) rfl

/-! The script path -/

/-- C10: the packager is called with the uploaded script bytes, entry name
`script.sh` and mode 0700; the command of the process spec is the one element
`/tmp` joined by `/` with `script.sh` and its working directory is `/tmp`;
inject targets `/tmp` with the archive the packager returned; so in a run the
command is the inject directory joined with the packager entry name, and the
working directory is the inject directory. -/
theorem endpointCommand_script_path (env : Env) (r : Request) :
    (∀ ev ∈ (endpointCommand env r).1, ∀ content name mode,
      ev.call = .tarFileInBuffer content name mode →
      name = "script.sh" ∧ mode = 0o700 ∧
        ∃ fileName, env.RetrieveMultiPartFormFile r "Script" = .ok (content, fileName)) ∧
    (∀ ev ∈ (endpointCommand env r).1, ∀ config host net containerName,
      ev.call = .containerCreate config host net containerName →
      config.Cmd = ["/tmp" ++ "/" ++ "script.sh"] ∧ config.WorkingDir = "/tmp") ∧
    (∀ ev ∈ (endpointCommand env r).1, ∀ id dstPath archive options,
      ev.call = .copyToContainer id dstPath archive options →
      dstPath = "/tmp" ∧
        ∃ script fileName, env.RetrieveMultiPartFormFile r "Script" = .ok (script, fileName) ∧
          env.TarFileInBuffer script "script.sh" 0o700 = .ok archive) ∧
    (∀ tar ∈ (endpointCommand env r).1, ∀ create ∈ (endpointCommand env r).1,
      ∀ copy ∈ (endpointCommand env r).1,
      ∀ content name mode config host net containerName id dstPath archive options,
      tar.call = .tarFileInBuffer content name mode →
      create.call = .containerCreate config host net containerName →
      copy.call = .copyToContainer id dstPath archive options →
      config.Cmd = [dstPath ++ "/" ++ name] ∧ config.WorkingDir = dstPath) := by
  refine ⟨?_, ?_, ?_, ?_⟩
  · intro ev hev content name mode hcall
    have h := endpointCommand_callArgs env r ev hev
    rw [hcall] at h
    exact h
  · intro ev hev config host net containerName hcall
    have h := endpointCommand_callArgs env r ev hev
    rw [hcall] at h
    obtain ⟨hc, -⟩ := h
    subst hc
    exact ⟨by decide, rfl⟩
  · intro ev hev id dstPath archive options hcall
    have h := endpointCommand_callArgs env r ev hev
    rw [hcall] at h
    obtain ⟨hd, -, script, fileName, hf, ht, -⟩ := h
    exact ⟨hd, script, fileName, hf, ht⟩
  · intro tar htar create hcreate copy hcopy content name mode config host net containerName
      id dstPath archive options h1 h2 h3
    have a := endpointCommand_callArgs env r tar htar
    have b := endpointCommand_callArgs env r create hcreate
    have c := endpointCommand_callArgs env r copy hcopy
    rw [h1] at a
    rw [h2] at b
    rw [h3] at c
    obtain ⟨hn, -⟩ := a
    obtain ⟨hc, -⟩ := b
    obtain ⟨hd, -⟩ := c
    subst hn hc hd
    exact ⟨by decide, rfl⟩

/-- The successful sample run: the command is the inject directory joined with
the packager entry name. -/
theorem endpointCommand_script_path_witness :
    containerConfig.Cmd = ["/tmp" ++ "/" ++ "script.sh"] ∧
    containerConfig.WorkingDir = "/tmp" :=
  (endpointCommand_script_path (mockEnv none (.other "")) mockRequest).2.2.2
    ⟨.tarFileInBuffer [35, 33, 10] "script.sh" 0o700, none⟩ (by decide)
    ⟨.containerCreate containerConfig hostConfig networkConfig "", none⟩ (by decide)
    ⟨.copyToContainer "abc123" "/tmp" [0, 35, 33, 10] copyOptions, none⟩ (by decide)
    [35, 33, 10] "script.sh" 0o700 containerConfig hostConfig networkConfig ""
    "abc123" "/tmp" [0, 35, 33, 10] copyOptions rfl rfl rfl

end EndpointCommand
